import Mathlib

/-!
Shallow embedding of the check50 harness (src/check500/check50.py).

The embedding models, from the source:
  * the `Child` process-harness wrapper (class `Child`, lines 475-637),
    with the pexpect child abstracted as a trace of poll observations
    (`Proc`): each loop iteration of `Child.wait` observes whether the
    process is alive and, if so, the outcome of one non-blocking read;
    exhaustion of the trace models the wall-clock deadline passing;
  * the `check` decorator wrapper (lines 283-321) over an abstract body
    outcome, with the `config.test_results` dict as an association list;
  * the valgrind report aggregator `Checks._check_valgrind`
    (lines 749-786) over parsed report records;
  * `Mismatch.raw` and `Mismatch.__str__` (lines 789-817), with the
    Python `repr` of strings embedded for text made of ASCII characters.

Python regular-expression matching (`re.match`) is abstracted as an
explicit function parameter `reM`; no theorem depends on its behaviour.
Raised Python exceptions are modelled with `Except`; a raised exception
carries no mutated state (no theorem depends on state after a raise).
String processing is implemented over `List Char` so every definition
evaluates by kernel reduction.
-/

namespace Check50

/-- Outcome of one non-blocking read (`self.child.read_nonblocking`,
line 549): data was available, no data yet (pexpect TIMEOUT), end of
file (pexpect EOF), or a UnicodeDecodeError. -/
inductive PollEv where
  | data (s : String)
  | noData
  | eofEv
  | decodeErr
deriving DecidableEq, Repr

/-- Abstract behaviour of one spawned pexpect child, as observed by the
harness.  `polls` holds one entry per iteration of the `wait` polling
loop: `none` means `child.isalive()` returned false at that iteration,
`some ev` means the process was alive and the read gave `ev`; running
out of entries models the wall-clock deadline elapsing (line 545).
`drain` holds the data returned by the post-loop drain reads
(lines 565-571); `signalstatus` and `exitstatus` are the pexpect fields
read at lines 576 and 579; `promptActivity` tells whether
`child.expect(".+", timeout)` at line 493 sees any activity. -/
structure Proc where
  polls : List (Option PollEv)
  drain : List String
  signalstatus : Option Int
  exitstatus : Option Int
  promptActivity : Bool
deriving DecidableEq, Repr

/-- Value attached to a `Mismatch` field: a plain string, a list of
strings, the pexpect EOF class, or the `File` object (whose Python repr
contains a memory address, abstracted here). -/
inductive MismVal where
  | strv (s : String)
  | listv (xs : List String)
  | eofv
  | fileObj
deriving DecidableEq, Repr

/-- Class `Mismatch` (line 789): expected and actual values. -/
structure Mismatch where
  expected : MismVal
  actual : MismVal
deriving DecidableEq, Repr

/-- Value stored in `payload.error_message`: initialised to the string
`""` (line 471), later set either to a string or to a `Mismatch`
(lines 589, 622). -/
inductive ErrMsg where
  | str (s : String)
  | mism (m : Mismatch)
deriving DecidableEq, Repr

/-- Python truthiness of an `error_message` value, used by the
`if not self.payload.error_message` test at line 588: the empty string
is falsy, any other string and any `Mismatch` object are truthy. -/
def truthyErr : ErrMsg → Bool
  | .str s => s ≠ ""
  | .mism _ => true

/-- Class `Payload` (lines 467-472). -/
structure Payload where
  output : String
  exit : Option Int
  error_message : ErrMsg
  help_message : String
deriving DecidableEq, Repr

/-- Fresh payload as built by `Payload.__init__`. -/
def Payload.init : Payload :=
  { output := "", exit := none, error_message := .str "", help_message := "" }

/-- Class `Status` (lines 463-465).  Note that `failed` is its only
attribute; in particular it has no `exit` attribute. -/
structure Status where
  failed : Bool
deriving DecidableEq, Repr

/-- State of one `Child` wrapper together with the `log`
list of the owning test, which the Child methods append to. -/
structure CState where
  log : List String
  payload : Payload
  status : Status
deriving DecidableEq, Repr

/-- Fresh child state as built by `Child.__init__` (lines 476-480)
under a test with an empty log. -/
def CState.init : CState :=
  { log := [], payload := Payload.init, status := { failed := false } }

/-- Python exceptions that the modelled methods can raise. -/
inductive PyEx where
  | timeoutErr
  | typeErr
  | attrErr
deriving DecidableEq, Repr

/-- Argument of `match`/`stdout`: a pattern string, a `File` (whose
`read()` yields the given contents, line 613), or the pexpect EOF
class. -/
inductive Expected where
  | pattern (s : String)
  | file (contents : String)
  | eofE
deriving DecidableEq, Repr

/-- Python truthiness of the `output` argument in `stdout`
(`if output:` at line 509): an empty pattern string is falsy, a `File`
object and the EOF class are truthy. -/
def Expected.truthy : Expected → Bool
  | .pattern s => s ≠ ""
  | .file _ => true
  | .eofE => true

/-- Argument of `stdin`: a literal line or the EOF marker. -/
inductive LineIn where
  | strL (s : String)
  | eofL
deriving DecidableEq, Repr

/-- Return value of `Child.exit`: the child itself, or the raw exit
code when called without an expected code (line 535). -/
inductive ExitRet where
  | child (c : CState)
  | code (v : Option Int)
deriving DecidableEq, Repr

/-- Decidable equality for `Except`, so that concrete runs of the
modelled methods can be settled by `decide`. -/
instance {ε α : Type} [DecidableEq ε] [DecidableEq α] : DecidableEq (Except ε α) := fun a b =>
  match a, b with
  | .ok x, .ok y =>
      if h : x = y then .isTrue (by rw [h])
      else .isFalse (by intro hh; exact h (Except.ok.inj hh))
  | .error x, .error y =>
      if h : x = y then .isTrue (by rw [h])
      else .isFalse (by intro hh; exact h (Except.error.inj hh))
  | .ok _, .error _ => .isFalse (by intro hh; exact Except.noConfusion hh)
  | .error _, .ok _ => .isFalse (by intro hh; exact Except.noConfusion hh)

/-- Linux value of `signal.SIGSEGV`, compared at line 576. -/
def SIGSEGV : Int := 11

/-- Appends one entry to the test log (`self.test.log.append`). -/
def appendLog (c : CState) (s : String) : CState :=
  { c with log := c.log ++ [s] }

/-- Embedding of `"".join(out)` over the accumulated read chunks. -/
def pyConcat (l : List String) : String :=
  l.foldl (fun a b => a ++ b) ""

/-- Embedding of `.replace("\r\n", "\n")` (line 573): left-to-right,
non-overlapping replacement of the two-character sequence. -/
def normalizeCRLF : List Char → List Char
  | [] => []
  | '\r' :: '\n' :: rest => '\n' :: normalizeCRLF rest
  | ch :: rest => ch :: normalizeCRLF rest

/-- Embedding of `.lstrip("\n")` (line 573). -/
def dropLeadingNl (l : List Char) : List Char :=
  l.dropWhile (fun ch => ch = '\n')

/-- Normalisation applied to the accumulated output buffer at line 573:
CRLF replacement followed by stripping of leading newline characters. -/
def normalizeOutput (s : String) : String :=
  String.mk (dropLeadingNl (normalizeCRLF s.data))

/-- Method `Child.fail` (lines 586-590): sets the `failed` latch and
records the message only when no truthy message is recorded yet. -/
def Child.fail (c : CState) (msg : ErrMsg) : CState :=
  let c := { c with status := { failed := true } }
  if truthyErr c.payload.error_message then c
  else { c with payload := { c.payload with error_message := msg } }

/-- Method `Child.kill` (lines 582-584): closes the pexpect child, an
effect external to the modelled state. -/
def Child.kill (c : CState) : CState := c

/-- Result of the polling loop of `Child.wait` (lines 543-561). -/
inductive LoopRes where
  | timedOut
  | broke (out : List String)
  | decodeFail
deriving DecidableEq, Repr

/-- Polling loop of `Child.wait` (lines 543-561): each iteration checks
the deadline (trace exhaustion, reaching the while-else), then
liveness (`none` breaks), then reads: data accumulates, TIMEOUT keeps
polling, EOF breaks, UnicodeDecodeError aborts the wait with a
failure. -/
def waitLoop : List (Option PollEv) → List String → LoopRes
  | [], _ => .timedOut
  | none :: _, acc => .broke acc
  | some (.data s) :: rest, acc => waitLoop rest (acc ++ [s])
  | some .noData :: rest, acc => waitLoop rest acc
  | some .eofEv :: _, acc => .broke acc
  | some .decodeErr :: _, _ => .decodeFail

/-- Method `Child.wait` (lines 542-580).  Note that, unlike the other
Child methods, `wait` does not test the `failed` latch.  On deadline
expiry it raises an Error whose context is a pexpect TIMEOUT
(lines 559-561); on a decode failure it fails without touching the
output buffer; otherwise it appends the drain reads, normalises and
stores the buffer, kills the process, then either fails on SIGSEGV
(without recording an exit code) or records `exitstatus`. -/
def Child.wait (c : CState) (p : Proc) : Except PyEx CState :=
  match waitLoop p.polls [] with
  | .timedOut => .error .timeoutErr
  | .decodeFail => .ok (Child.fail c (.str "output not valid ASCII text"))
  | .broke out =>
      let c := { c with payload := { c.payload with
                   output := normalizeOutput (pyConcat (out ++ p.drain)) } }
      let c := Child.kill c
      if p.signalstatus = some SIGSEGV then
        .ok (Child.fail c (.str "failed to execute program due to segmentation fault"))
      else
        .ok { c with payload := { c.payload with exit := p.exitstatus } }

/-- Method `Child.stdin` (lines 482-501): no-op on a failed child; logs
the line being sent; when `prompt` is set, absence of process activity
within the timeout fails with the prompt message; sending the line does
not alter the modelled state. -/
def Child.stdin (c : CState) (p : Proc) (line : LineIn) (prompt : Bool) : CState :=
  if c.status.failed then c
  else
    let c := appendLog c (match line with
      | .eofL => "sending EOF..."
      | .strL s => "sending input " ++ s ++ "...")
    if prompt then
      if p.promptActivity then c
      else Child.fail c (.str "expected prompt for input, found none")
    else c

/-- Placeholder for the Python repr of a `File` object, whose text
contains a memory address. -/
def fileReprPlaceholder : String := "<check50.File object>"

/-- Value placed in `Mismatch.expected` when `str_output` defaults to
`output` (lines 603-604, evaluated before `output.read()` rebinds
`output`). -/
def expectedMismVal : Expected → MismVal
  | .pattern s => .strv s
  | .file _ => .fileObj
  | .eofE => .eofv

/-- Log line of `Child.match` (lines 606-609). -/
def matchLogMsg : Expected → Option String → String
  | .eofE, _ => "checking for EOF..."
  | out, so =>
      "checking for output \"" ++
        (match so with
         | some s => s
         | none => match out with
           | .pattern s => s
           | .file _ => fileReprPlaceholder
           | .eofE => "") ++ "\"..."

/-- Method `Child.match` (lines 599-630), named `matchOp` because
`match` is reserved in Lean.  No-op on a failed child; otherwise logs,
then: a `File` argument is read and compared literally against the
stored buffer (line 619); a pattern is matched with `re.match`
(line 616), abstracted as `reM`; the EOF class reaches
`re.match(EOF, ...)`, which raises a TypeError, so the trailing-output
test at line 627 is unreachable.  A mismatch fails with a `Mismatch`
whose actual value is the (re-)normalised buffer (line 622). -/
def Child.matchOp (reM : String → String → Bool) (c : CState)
    (output : Expected) (str_output : Option String) : Except PyEx CState :=
  if c.status.failed then .ok c
  else
    let so : MismVal := match str_output with
      | some s => .strv s
      | none => expectedMismVal output
    let c1 := appendLog c (matchLogMsg output str_output)
    match output with
    | .eofE => .error .typeErr
    | .file contents =>
        if contents = c1.payload.output then .ok c1
        else .ok (Child.fail c1 (.mism ⟨so, .strv (normalizeOutput c1.payload.output)⟩))
    | .pattern pat =>
        if reM pat c1.payload.output then .ok c1
        else .ok (Child.fail c1 (.mism ⟨so, .strv (normalizeOutput c1.payload.output)⟩))

/-- Method `Child.stdout` (lines 503-512): no-op on a failed child;
waits, then delegates to `match` when the `output` argument is truthy. -/
def Child.stdout (reM : String → String → Bool) (c : CState) (p : Proc)
    (output : Option Expected) (str_output : Option String) : Except PyEx CState :=
  if c.status.failed then .ok c
  else match Child.wait c p with
    | .error e => .error e
    | .ok c1 =>
        match output with
        | some out =>
            if Expected.truthy out then Child.matchOp reM c1 out str_output
            else .ok c1
        | none => .ok c1

/-- Method `Child.reject` (lines 514-526): no-op on a failed child;
logs, then waits.  An Error raised by `wait` with a TIMEOUT context is
swallowed and the child is returned; any other raised Error propagates;
a wait that returns normally makes the child fail with the rejection
message. -/
def Child.reject (c : CState) (p : Proc) : Except PyEx CState :=
  if c.status.failed then .ok c
  else
    let c1 := appendLog c "checking that input was rejected..."
    match Child.wait c1 p with
    | .error .timeoutErr => .ok c1
    | .error e => .error e
    | .ok c2 => .ok (Child.fail c2 (.str "expected program to reject input, but it did not"))

/-- Method `Child.exit` (lines 528-540): no-op on a failed child;
waits; without an expected code, returns the recorded raw exit code;
with one, logs and, on mismatch, evaluates
`"expected exit code {}, not {}".format(code, self.status.exit)` —
but `Status` has no `exit` attribute (lines 463-465), so this
evaluation raises an AttributeError before `fail` can be called. -/
def Child.exit (c : CState) (p : Proc) (code : Option Int) : Except PyEx ExitRet :=
  if c.status.failed then .ok (.child c)
  else match Child.wait c p with
    | .error e => .error e
    | .ok c1 =>
        match code with
        | none => .ok (.code c1.payload.exit)
        | some k =>
            let c2 := appendLog c1
              ("checking that program exited with status " ++ toString k ++ "...")
            if c2.payload.exit ≠ some k then .error .attrErr
            else .ok (.child c2)

/-- Method `Child.help` (lines 632-637): returns the child unchanged
when the `failed` latch is set; otherwise records the hint message. -/
def Child.help (c : CState) (m : String) : CState :=
  if c.status.failed then c
  else { c with payload := { c.payload with help_message := m } }

/-- Constant `Checks.PASS = True` (line 640), as the Python value. -/
def Checks.PASS : Option Bool := some true

/-- Constant `Checks.FAIL = False` (line 641), as the Python value. -/
def Checks.FAIL : Option Bool := some false

/-- Constant `Checks.SKIP = None` (line 642), as the Python value. -/
def Checks.SKIP : Option Bool := none

/-- Embedding of `config.test_results.get(key)` (line 293) over the
dict as an association list: a missing key yields Python `None`, which
coincides with the stored value for SKIP. -/
def pyGet (d : List (String × Option Bool)) (k : String) : Option Bool :=
  (d.lookup k).getD none

/-- Embedding of `config.test_results[key] = value` (lines 294, 318):
the new binding shadows any earlier one under `pyGet`. -/
def dictSet (d : List (String × Option Bool)) (k : String) (v : Option Bool) :
    List (String × Option Bool) :=
  (k, v) :: d

/-- Python truthiness of the `dependency` argument at line 293: absent
(None) and the empty string are falsy. -/
def depTruthy : Option String → Bool
  | none => false
  | some s => s != ""

/-- Skip rationale recorded at line 295. -/
def skipRationale : String := "can\x27t check until a frown turns upside down"

/-- Outcome of running a check body `func(self)` (line 306): either it
returns normally, leaving the list of children it spawned, or it raises
an `Error` carrying a rationale, helpers and a result (class `Error`,
lines 820-826). -/
inductive BodyRes where
  | normal (children : List CState)
  | raised (rationale : Option ErrMsg) (helpers : Option String) (result : Option Bool)
deriving DecidableEq, Repr

/-- Observable outcome of the `check` decorator wrapper (lines 290-318):
the recorded result, rationale and helpers, whether the staging copy
(`shutil.copytree`, line 301) was made, whether the body ran, and the
updated `config.test_results` dict. -/
structure WrapRes where
  result : Option Bool
  rationale : Option ErrMsg
  helpers : Option String
  copied : Bool
  bodyRan : Bool
  testResults : List (String × Option Bool)
deriving DecidableEq, Repr

/-- Wrapper produced by the `check` decorator (lines 283-321).  When a
truthy dependency has a stored result that differs from PASS the check is
recorded as SKIP with the skip rationale and neither the staging copy
nor the body happen.  Otherwise the staging copy is made and the body
runs; a raised `Error` supplies result, rationale and helpers; a normal
return passes unless the last spawned child has its `failed` latch set,
in which case an `Error` carrying the error and help messages of that
child is raised and caught (lines 307-314), giving FAIL. -/
def checkWrapper (name : String) (dep : Option String)
    (results : List (String × Option Bool)) (body : BodyRes) : WrapRes :=
  if depTruthy dep && pyGet results (dep.getD "") != Checks.PASS then
    { result := Checks.SKIP, rationale := some (.str skipRationale),
      helpers := none, copied := false, bodyRan := false,
      testResults := dictSet results name Checks.SKIP }
  else
    let outcome : Option Bool × Option ErrMsg × Option String :=
      match body with
      | .raised r h res => (res, r, h)
      | .normal children =>
          match children.getLast? with
          | some ch =>
              if ch.status.failed then
                (Checks.FAIL, some ch.payload.error_message, some ch.payload.help_message)
              else (Checks.PASS, none, none)
          | none => (Checks.PASS, none, none)
    { result := outcome.1, rationale := outcome.2.1, helpers := outcome.2.2,
      copied := true, bodyRan := true,
      testResults := dictSet results name outcome.1 }

/-- One stack frame of a valgrind error record (`stack/frame`,
lines 769-777): optional `obj`, `file` and `line` elements. -/
structure VFrame where
  obj : Option String
  file : Option String
  line : Option String
deriving DecidableEq, Repr

/-- One parsed valgrind error record (lines 758-763): the `kind` text,
the `xwhat/text` message used for leak kinds, the `what` message used
otherwise, and the ordered call stack. -/
structure VError where
  kind : String
  xwhatText : String
  whatText : String
  frames : List VFrame
deriving DecidableEq, Repr

/-- Embedding of `os.path.dirname` (posixpath): the prefix up to the
last slash, with trailing slashes stripped unless the prefix is all
slashes; the empty string when there is no slash. -/
def pyDirname (p : String) : String :=
  let cs := p.data
  match cs.reverse.findIdx? (fun ch => ch = '/') with
  | none => ""
  | some rI =>
      let head := cs.take (cs.length - rI)
      if head.all (fun ch => ch = '/') then String.mk head
      else String.mk ((head.reverse.dropWhile (fun ch => ch = '/')).reverse)

/-- Prefix test over character lists, used to embed
`kind.startswith("Leak_")` (line 763). -/
def isPrefixChars : List Char → List Char → Bool
  | [], _ => true
  | _ :: _, [] => false
  | a :: as, b :: bs => a = b && isPrefixChars as bs

/-- Embedding of `str.startswith`. -/
def pyStartsWith (s pre : String) : Bool :=
  isPrefixChars pre.data s.data

/-- Frame scan of `_check_valgrind` (lines 769-777): the loop breaks at
the first frame whose `obj` is present and whose dirname equals the
check directory; that frame contributes a location suffix only when
both `file` and `line` are present.  Frames without `obj`, or whose
`obj` lies in another directory, are passed over. -/
def locSuffix (dir : String) : List VFrame → String
  | [] => ""
  | fr :: rest =>
      match fr.obj with
      | some o =>
          if pyDirname o = dir then
            match fr.file, fr.line with
            | some f, some l => ": (file: " ++ f ++ ", line: " ++ l ++ ")"
            | _, _ => ""
          else locSuffix dir rest
      | none => locSuffix dir rest

/-- Message composed for one valgrind error (lines 763-779): a tab, the
kind-selected message text, then the optional location suffix. -/
def composeMsg (dir : String) (e : VError) : String :=
  "\t" ++ (if pyStartsWith e.kind "Leak_" then e.xwhatText else e.whatText)
       ++ locSuffix dir e.frames

/-- Dedup loop of `_check_valgrind` (lines 757, 780-782): appends a
message to the log only when it is not in the `reported` set, which is
modelled as the list of messages seen so far. -/
def vLogLoop : List String → List String → List String
  | _, [] => []
  | seen, m :: ms =>
      if m ∈ seen then vLogLoop seen ms
      else m :: vLogLoop (m :: seen) ms

/-- Messages logged by `Checks._check_valgrind` (lines 749-786) for a
parsed report, in order. -/
def checkValgrindLog (dir : String) (errs : List VError) : List String :=
  vLogLoop [] (errs.map (composeMsg dir))

/-- Whether `_check_valgrind` raises (line 785): exactly when the
reported set is non-empty. -/
def checkValgrindFails (dir : String) (errs : List VError) : Bool :=
  checkValgrindLog dir errs ≠ []

/-- Generic first-occurrence deduplication: keeps the first occurrence
of every element, in order of first appearance. -/
def dedupFirst : List String → List String
  | [] => []
  | a :: l => a :: dedupFirst (l.filter (fun b => b ≠ a))
termination_by l => l.length
decreasing_by
  simp only [List.length_cons]
  exact Nat.lt_succ_of_le (List.length_filter_le _ _)

/-- Backslash character, written by code point to keep string literals
simple. -/
def bslChar : Char := Char.ofNat 92

/-- Single-quote character. -/
def sqChar : Char := Char.ofNat 39

/-- Double-quote character. -/
def dqChar : Char := Char.ofNat 34

/-- Hexadecimal digit character for a value below 16. -/
def hexDigitChar (n : Nat) : Char :=
  if n < 10 then Char.ofNat (48 + n) else Char.ofNat (87 + n)

/-- Quote chosen by the Python repr of a string: a single quote, unless
the string contains a single quote and no double quote. -/
def reprQuote (s : String) : Char :=
  if s.data.contains sqChar && !(s.data.contains dqChar) then dqChar else sqChar

/-- Escape of one character inside the Python repr of a string, for
text made of ASCII characters: backslash and the chosen quote are
backslash-escaped, newline, carriage return and tab become two-letter
escapes, other control characters become hexadecimal escapes, and the
rest stand for themselves. -/
def reprEscapeChar (q : Char) (ch : Char) : List Char :=
  if ch = bslChar then [bslChar, bslChar]
  else if ch = q then [bslChar, q]
  else if ch = '\n' then [bslChar, 'n']
  else if ch = '\r' then [bslChar, 'r']
  else if ch = '\t' then [bslChar, 't']
  else if ch.toNat < 32 || ch.toNat = 127 then
    [bslChar, 'x', hexDigitChar (ch.toNat / 16), hexDigitChar (ch.toNat % 16)]
  else [ch]

/-- Embedding of the Python `repr` of a string (applied at line 813)
for text made of ASCII characters. -/
def pyRepr (s : String) : String :=
  let q := reprQuote s
  String.mk (q :: (s.data.flatMap (reprEscapeChar q)) ++ [q])

/-- Value of `s = repr(s); s = s[1:-1]` (lines 813-814): the repr with
its first and last character removed. -/
def reprStripped (s : String) : List Char :=
  ((pyRepr s).data.drop 1).dropLast

/-- Truncation and quoting at lines 815-817: keep 15 characters and
append three dots when longer, then wrap in double quotes. -/
def rawCore (r : List Char) : String :=
  let r := if r.length > 15 then r.take 15 ++ ['.', '.', '.'] else r
  String.mk (dqChar :: r ++ [dqChar])

/-- Embedding of `"\n".join(s)` (line 808). -/
def pyJoinNl : List String → String
  | [] => ""
  | [x] => x
  | x :: xs => x ++ "\n" ++ pyJoinNl xs

/-- Static method `Mismatch.raw` (lines 803-817): a list is first
joined with newlines; the EOF class renders as the bare string `EOF`;
a string is rendered via its repr with the quotes stripped, truncated,
and wrapped in double quotes; the `File` object is rendered via its
(abstracted) repr with first and last character stripped. -/
def Mismatch.raw : MismVal → String
  | .listv xs => rawCore (reprStripped (pyJoinNl xs))
  | .eofv => "EOF"
  | .strv s => rawCore (reprStripped s)
  | .fileObj => rawCore ((fileReprPlaceholder.data.drop 1).dropLast)

/-- Method `Mismatch.__str__` (lines 796-798). -/
def Mismatch.toStr (m : Mismatch) : String :=
  "expected " ++ Mismatch.raw m.expected ++ ", not " ++ Mismatch.raw m.actual

/-- Process that is found dead at the first poll with exit status 1. -/
def pDead1 : Proc :=
  { polls := [none], drain := [], signalstatus := none,
    exitstatus := some 1, promptActivity := true }

/-- Process that is found dead at the first poll, having been killed by
SIGSEGV. -/
def pSegv : Proc :=
  { polls := [none], drain := [], signalstatus := some 11,
    exitstatus := none, promptActivity := true }

/-- Process that echoes output at the first poll but is still alive
when the deadline elapses. -/
def pEcho : Proc :=
  { polls := [some (.data "hello")], drain := [], signalstatus := none,
    exitstatus := none, promptActivity := true }

/-- Process that produces no output and is still alive when the
deadline elapses. -/
def pNothing : Proc :=
  { polls := [some .noData], drain := [], signalstatus := none,
    exitstatus := none, promptActivity := true }

/-- Process that writes the bytes of `a CRLF b` and then reaches EOF,
exiting with status 0. -/
def pCrlf : Proc :=
  { polls := [some (.data "a\r\nb"), some .eofEv], drain := [],
    signalstatus := none, exitstatus := some 0, promptActivity := true }

/-- Process that is found dead at the first poll, with `x` left in the
pipe for the drain reads, exiting with status 0. -/
def pW : Proc :=
  { polls := [none], drain := ["x"], signalstatus := none,
    exitstatus := some 0, promptActivity := true }

/-- Child whose failed latch is set with the truthy message `boom`. -/
def cFailedW : CState :=
  { log := [],
    payload := { output := "", exit := none, error_message := .str "boom",
                 help_message := "" },
    status := { failed := true } }

/-- Child whose failed latch is set with the truthy message `err` and
no help message recorded. -/
def cFailedNoHelp : CState :=
  { log := [],
    payload := { output := "", exit := none, error_message := .str "err",
                 help_message := "" },
    status := { failed := true } }

/-- Valgrind error record whose only stack frame lies outside the
directory `a/b`. -/
def vErrOutside : VError :=
  { kind := "InvalidRead", xwhatText := "x", whatText := "bad",
    frames := [{ obj := some "z/p.out", file := some "f.c", line := some "3" }] }

theorem vLogLoop_mem (l : List String) : ∀ (seen : List String) (x : String),
    x ∈ vLogLoop seen l ↔ x ∈ l ∧ x ∉ seen := by
  induction l with
  | nil => intro seen x; simp [vLogLoop]
  | cons m ms ih =>
      intro seen x
      by_cases hm : m ∈ seen
      · rw [vLogLoop, if_pos hm, ih]
        constructor
        · rintro ⟨h1, h2⟩; exact ⟨List.mem_cons_of_mem _ h1, h2⟩
        · rintro ⟨h1, h2⟩
          rcases List.mem_cons.mp h1 with h | h
          · subst h; exact absurd hm h2
          · exact ⟨h, h2⟩
      · rw [vLogLoop, if_neg hm]
        constructor
        · intro h
          rcases List.mem_cons.mp h with h | h
          · subst h; exact ⟨List.mem_cons_self _ _, hm⟩
          · rw [ih] at h
            exact ⟨List.mem_cons_of_mem _ h.1,
                   fun hx => h.2 (List.mem_cons_of_mem _ hx)⟩
        · rintro ⟨h1, h2⟩
          by_cases hxm : x = m
          · subst hxm; exact List.mem_cons_self _ _
          · rcases List.mem_cons.mp h1 with h | h
            · exact absurd h hxm
            · apply List.mem_cons_of_mem
              rw [ih]
              exact ⟨h, fun hx => (List.mem_cons.mp hx).elim hxm h2⟩

theorem vLogLoop_sublist (l : List String) : ∀ seen, List.Sublist (vLogLoop seen l) l := by
  induction l with
  | nil => intro seen; simp [vLogLoop]
  | cons m ms ih =>
      intro seen
      rw [vLogLoop]
      by_cases hm : m ∈ seen
      · rw [if_pos hm]; exact (ih seen).cons m
      · rw [if_neg hm]; exact (ih (m :: seen)).cons₂ m

theorem vLogLoop_nodup (l : List String) : ∀ seen, (vLogLoop seen l).Nodup := by
  induction l with
  | nil => intro seen; simp [vLogLoop]
  | cons m ms ih =>
      intro seen
      rw [vLogLoop]
      by_cases hm : m ∈ seen
      · rw [if_pos hm]; exact ih seen
      · rw [if_neg hm]
        refine List.nodup_cons.mpr ⟨?_, ih _⟩
        intro hmem
        exact ((vLogLoop_mem ms (m :: seen) m).mp hmem).2 (List.mem_cons_self _ _)

theorem vLogLoop_congr (l : List String) : ∀ seen seen2,
    (∀ x, x ∈ seen ↔ x ∈ seen2) → vLogLoop seen l = vLogLoop seen2 l := by
  induction l with
  | nil => intro _ _ _; simp [vLogLoop]
  | cons m ms ih =>
      intro seen seen2 hss
      rw [vLogLoop, vLogLoop]
      by_cases hm : m ∈ seen
      · rw [if_pos hm, if_pos ((hss m).mp hm)]; exact ih _ _ hss
      · rw [if_neg hm, if_neg (fun h => hm ((hss m).mpr h))]
        refine congrArg (m :: ·) (ih _ _ (fun x => ?_))
        simp only [List.mem_cons, hss x]

theorem vLogLoop_cons_seen (l : List String) : ∀ (seen : List String) (a : String),
    vLogLoop (a :: seen) l = vLogLoop seen (l.filter (fun b => b ≠ a)) := by
  induction l with
  | nil => intro seen a; simp [vLogLoop]
  | cons m ms ih =>
      intro seen a
      by_cases hma : m = a
      · subst hma
        rw [vLogLoop, if_pos (List.mem_cons_self _ _)]
        have hfil : (m :: ms).filter (fun b => b ≠ m) = ms.filter (fun b => b ≠ m) := by
          simp [List.filter_cons]
        rw [hfil, ih]
      · have hfil : (m :: ms).filter (fun b => b ≠ a)
            = m :: ms.filter (fun b => b ≠ a) := by
          simp [List.filter_cons, hma]
        rw [vLogLoop, hfil, vLogLoop]
        by_cases hm : m ∈ seen
        · rw [if_pos (List.mem_cons_of_mem _ hm), if_pos hm, ih]
        · have hnot : m ∉ a :: seen := by
            intro h
            rcases List.mem_cons.mp h with h | h
            exacts [hma h, hm h]
          rw [if_neg hnot, if_neg hm]
          refine congrArg (m :: ·) ?_
          rw [vLogLoop_congr ms (m :: a :: seen) (a :: m :: seen)
                (fun x => by simp only [List.mem_cons]; tauto),
              ih (m :: seen) a]

theorem vLogLoop_nil_eq : ∀ (n : Nat) (l : List String),
    l.length ≤ n → vLogLoop [] l = dedupFirst l := by
  intro n
  induction n with
  | zero =>
      intro l hl
      have : l = [] := List.eq_nil_of_length_eq_zero (Nat.le_zero.mp hl)
      subst this
      simp [vLogLoop, dedupFirst]
  | succ k ih =>
      intro l hl
      cases l with
      | nil => simp [vLogLoop, dedupFirst]
      | cons a t =>
          rw [vLogLoop, if_neg (List.not_mem_nil a), dedupFirst]
          refine congrArg (a :: ·) ?_
          rw [vLogLoop_cons_seen, ih _ (le_trans (List.length_filter_le _ _)
                (Nat.le_of_succ_le_succ hl))]

theorem checkValgrindLog_eq_dedupFirst (dir : String) (errs : List VError) :
    checkValgrindLog dir errs = dedupFirst (errs.map (composeMsg dir)) :=
  vLogLoop_nil_eq (errs.map (composeMsg dir)).length _ le_rfl

theorem fail_failed (c : CState) (msg : ErrMsg) :
    (Child.fail c msg).status.failed = true := by
  simp only [Child.fail]
  split <;> rfl

theorem fail_exit (c : CState) (msg : ErrMsg) :
    (Child.fail c msg).payload.exit = c.payload.exit := by
  simp only [Child.fail]
  split <;> rfl

theorem fail_msg_truthy (c : CState) (msg : ErrMsg)
    (h : truthyErr c.payload.error_message = true) :
    (Child.fail c msg).payload.error_message = c.payload.error_message := by
  simp [Child.fail, h]

theorem fail_msg_falsy (c : CState) (msg : ErrMsg)
    (h : truthyErr c.payload.error_message = false) :
    (Child.fail c msg).payload.error_message = msg := by
  simp [Child.fail, h]

/-- C1 (counterexample): `wait` is not guarded by the failed latch.  On
this failed child it rewrites the output and exit payload, so the claim
that every subsequent operation — wait included — is a no-op returning
the Child unchanged is false. -/
theorem claim1_cex_wait_not_noop :
    cFailedW.status.failed = true ∧ Child.wait cFailedW pW ≠ .ok cFailedW := by
  decide

/-- C1 (amended): on a Child whose failed latch is set, stdin, stdout,
reject, exit, match and help are no-ops returning the child unchanged,
and a truthy recorded error message is never overwritten by a later
fail call; wait, which lacks the latch guard, may rewrite the output
and exit payload even on a failed Child, but it preserves the latch and
a truthy first message. -/
theorem claim1_failed_latch_amended (reM : String → String → Bool)
    (c : CState) (p : Proc) (line : LineIn) (prompt : Bool)
    (out : Option Expected) (so : Option String) (code : Option Int)
    (m : String) (exp : Expected)
    (h : c.status.failed = true) :
    Child.stdin c p line prompt = c
    ∧ Child.stdout reM c p out so = .ok c
    ∧ Child.reject c p = .ok c
    ∧ Child.exit c p code = .ok (.child c)
    ∧ Child.matchOp reM c exp so = .ok c
    ∧ Child.help c m = c
    ∧ (∀ msg, truthyErr c.payload.error_message = true →
        (Child.fail c msg).payload.error_message = c.payload.error_message)
    ∧ (∀ r, Child.wait c p = .ok r →
        r.status.failed = true
        ∧ (truthyErr c.payload.error_message = true →
            r.payload.error_message = c.payload.error_message)) := by
  refine ⟨?_, ?_, ?_, ?_, ?_, ?_, ?_, ?_⟩
  · simp [Child.stdin, h]
  · simp [Child.stdout, h]
  · simp [Child.reject, h]
  · simp [Child.exit, h]
  · simp [Child.matchOp, h]
  · simp [Child.help, h]
  · intro msg hmsg
    simp [Child.fail, hmsg]
  · intro r hr
    rw [Child.wait] at hr
    rcases hw : waitLoop p.polls [] with _ | out2 | _ <;> rw [hw] at hr
    · exact absurd hr (by simp)
    · by_cases hs : p.signalstatus = some SIGSEGV
      · simp only [hs, reduceIte] at hr
        cases Except.ok.inj hr
        constructor
        · simp only [Child.fail, Child.kill]
          split <;> rfl
        · intro ht
          simp [Child.fail, Child.kill, ht]
      · simp only [hs, reduceIte] at hr
        cases Except.ok.inj hr
        constructor
        · simpa [Child.kill] using h
        · intro _
          simp [Child.kill]
    · cases Except.ok.inj hr
      constructor
      · simp only [Child.fail]
        split <;> rfl
      · intro ht
        simp [Child.fail, ht]

/-- C1 (witness): the amended no-op guarantees at a concrete failed
child. -/
theorem claim1_failed_latch_witness :
    Child.stdin cFailedW pW (.strL "q") true = cFailedW
    ∧ Child.help cFailedW "hint" = cFailedW := by
  have h := claim1_failed_latch_amended (fun _ _ => true) cFailedW pW
    (.strL "q") true none none none "hint" (.pattern "z") (by decide)
  exact ⟨h.1, h.2.2.2.2.2.1⟩

/-- C2: a check with a declared (truthy) dependency whose stored result
is not PASS — including a dependency that has not run, whose lookup
yields Python None — is recorded as SKIP with the skip rationale; the
staging copy is not made and the body does not run. -/
theorem claim2_dependency_skip (name d : String)
    (results : List (String × Option Bool)) (body : BodyRes)
    (hd : d ≠ "") (hres : pyGet results d ≠ Checks.PASS) :
    checkWrapper name (some d) results body =
      { result := Checks.SKIP, rationale := some (.str skipRationale),
        helpers := none, copied := false, bodyRan := false,
        testResults := dictSet results name Checks.SKIP } := by
  have hc : (depTruthy (some d)
      && (pyGet results ((some d).getD "") != Checks.PASS)) = true := by
    simp only [depTruthy, Option.getD_some, Bool.and_eq_true, bne_iff_ne, ne_eq]
    exact ⟨hd, hres⟩
  unfold checkWrapper
  rw [if_pos hc]

/-- C2 (witness): a concrete check skipped because its dependency never
ran. -/
theorem claim2_dependency_skip_witness :
    ("dep" : String) ≠ "" ∧ pyGet [] "dep" ≠ Checks.PASS ∧
    checkWrapper "t" (some "dep") [] (.normal []) =
      { result := Checks.SKIP, rationale := some (.str skipRationale),
        helpers := none, copied := false, bodyRan := false,
        testResults := dictSet [] "t" Checks.SKIP } :=
  ⟨by decide, by decide,
   claim2_dependency_skip "t" "dep" [] (.normal []) (by decide) (by decide)⟩

/-- C3: on a fresh child whose process exited with status 1, `exit 0`
does not fail with an expected/actual message: evaluating
`self.status.exit` in the message raises an AttributeError, because
`Status` has no `exit` attribute; `exit` with no expected code does
return the raw recorded exit code. -/
theorem claim3_exit_attribute_error :
    Child.exit CState.init pDead1 (some 0) = .error .attrErr
    ∧ Child.exit CState.init pDead1 none = .ok (.code (some 1)) := by
  decide

/-- C4 (counterexample): on this already-failed child, `help` does not
attach the hint — it returns the child unchanged — so the claim that
help attaches the hint to the failure payload and is a no-op only
before failure is false. -/
theorem claim4_cex_help_noop_when_failed :
    cFailedNoHelp.status.failed = true
    ∧ Child.help cFailedNoHelp "try again" = cFailedNoHelp
    ∧ cFailedNoHelp.payload.help_message = "" := by
  decide

/-- C4 (amended): `help` records the hint message while the child has
not failed (so a later failure can report it); once the failed latch is
set it is a no-op returning the child unchanged. -/
theorem claim4_help_amended (c : CState) (m : String) :
    (c.status.failed = true → Child.help c m = c)
    ∧ (c.status.failed = false →
        Child.help c m
          = { c with payload := { c.payload with help_message := m } }) := by
  constructor <;> intro h <;> simp [Child.help, h]

/-- C4 (witness): the amended behaviour at a concrete non-failed
child. -/
theorem claim4_help_witness :
    Child.help CState.init "hint"
      = { CState.init with
          payload := { CState.init.payload with help_message := "hint" } } :=
  (claim4_help_amended CState.init "hint").2 rfl

/-- C5 (counterexample): this process echoes `hello` within the
timeout but is still alive at the deadline, so `wait` times out and
`reject` leaves the child unfailed — the claim that reject fails
whenever the process produces output before the deadline is false. -/
theorem claim5_cex_reject_passes_despite_output :
    pEcho.polls = [some (.data "hello")]
    ∧ (Child.reject CState.init pEcho).toOption.map (fun r => r.status.failed)
        = some false := by
  decide

/-- C5 (amended): on a non-failed child, reject succeeds exactly when
the polling loop reaches the deadline with the process still alive —
regardless of any output produced — and fails whenever the wait
completes before the deadline (process exit, EOF, or invalid text). -/
theorem claim5_reject_amended (c : CState) (p : Proc)
    (h : c.status.failed = false) :
    (waitLoop p.polls [] = .timedOut →
      Child.reject c p = .ok (appendLog c "checking that input was rejected..."))
    ∧ (waitLoop p.polls [] ≠ .timedOut →
      (Child.reject c p).toOption.map (fun r => r.status.failed) = some true) := by
  constructor
  · intro hw
    simp [Child.reject, h, Child.wait, hw]
  · intro hw
    rcases hcase : waitLoop p.polls [] with _ | out | _
    · exact absurd hcase hw
    · by_cases hs : p.signalstatus = some SIGSEGV <;>
        simp [Child.reject, h, Child.wait, hcase, hs, Child.kill,
              Except.toOption, fail_failed]
    · simp [Child.reject, h, Child.wait, hcase, Except.toOption, fail_failed]

/-- C5 (witness): the amended success case at a concrete silent,
still-running process. -/
theorem claim5_reject_witness :
    waitLoop pNothing.polls [] = .timedOut
    ∧ Child.reject CState.init pNothing
        = .ok (appendLog CState.init "checking that input was rejected...") :=
  ⟨by decide, (claim5_reject_amended CState.init pNothing (by decide)).1 (by decide)⟩

/-- C6: when the polling loop breaks (the process terminated or reached
EOF), a SIGSEGV signal status makes wait record the crash-specific
failure message (when no truthy message was recorded yet) and leave the
exit payload untouched, while any other signal status records the real
exit status in the payload and leaves latch and message unchanged. -/
theorem claim6_segfault_path (c : CState) (p : Proc) (out : List String)
    (hbroke : waitLoop p.polls [] = .broke out) :
    (p.signalstatus = some SIGSEGV →
      (Child.wait c p).toOption.map (fun r => r.status.failed) = some true
      ∧ (Child.wait c p).toOption.map (fun r => r.payload.exit)
          = some c.payload.exit
      ∧ (truthyErr c.payload.error_message = false →
          (Child.wait c p).toOption.map (fun r => r.payload.error_message)
            = some (.str "failed to execute program due to segmentation fault")))
    ∧ (p.signalstatus ≠ some SIGSEGV →
      (Child.wait c p).toOption.map (fun r => r.payload.exit) = some p.exitstatus
      ∧ (Child.wait c p).toOption.map (fun r => r.status.failed)
          = some c.status.failed
      ∧ (Child.wait c p).toOption.map (fun r => r.payload.error_message)
          = some c.payload.error_message) := by
  constructor
  · intro hs
    refine ⟨?_, ?_, ?_⟩
    · rw [Child.wait, hbroke]
      simp [hs, Child.kill, Except.toOption, fail_failed]
    · rw [Child.wait, hbroke]
      simp [hs, Child.kill, Except.toOption, fail_exit]
    · intro ht
      rw [Child.wait, hbroke]
      simp only [hs, reduceIte, Except.toOption, Option.map]
      rw [fail_msg_falsy]
      simpa [Child.kill] using ht
  · intro hs
    rw [Child.wait, hbroke]
    simp [hs, Child.kill, Except.toOption]

/-- C6 (witness): the crash path at a concrete segfaulting process. -/
theorem claim6_segfault_witness :
    waitLoop pSegv.polls [] = .broke []
    ∧ (Child.wait CState.init pSegv).toOption.map (fun r => r.status.failed)
        = some true :=
  ⟨by decide,
   ((claim6_segfault_path CState.init pSegv [] (by decide)).1 (by decide)).1⟩

/-- C7: the buffer stored by wait is the CRLF-normalised,
leading-newline-stripped concatenation of the reads; a literal (File)
expectation is compared byte-for-byte against that buffer, succeeding
exactly on equality; in particular output bytes `a CRLF b` satisfy the
literal expectation `a LF b`. -/
theorem claim7_crlf_literal_match (reM : String → String → Bool) (c : CState)
    (h : c.status.failed = false) :
    (∀ p out, waitLoop p.polls [] = .broke out → p.signalstatus ≠ some SIGSEGV →
      (Child.wait c p).toOption.map (fun r => r.payload.output)
        = some (normalizeOutput (pyConcat (out ++ p.drain))))
    ∧ (∀ exp so, exp = c.payload.output →
        Child.matchOp reM c (.file exp) so
          = .ok (appendLog c (matchLogMsg (.file exp) so)))
    ∧ (∀ exp so, exp ≠ c.payload.output →
        (Child.matchOp reM c (.file exp) so).toOption.map
          (fun r => r.status.failed) = some true)
    ∧ ((Child.stdout reM c pCrlf (some (.file "a\nb")) none).toOption.map
          (fun r => (r.status.failed, r.payload.output))
        = some (false, "a\nb")) := by
  refine ⟨?_, ?_, ?_, ?_⟩
  · intro p out hb hs
    rw [Child.wait, hb]
    simp [hs, Child.kill, Except.toOption]
  · intro exp so he
    simp [Child.matchOp, h, appendLog, he]
  · intro exp so he
    simp [Child.matchOp, h, appendLog, Except.toOption, fail_failed, he]
  · have hw : waitLoop pCrlf.polls [] = .broke ["a\r\nb"] := by decide
    have hn : normalizeOutput (pyConcat ("a\r\nb" :: pCrlf.drain)) = "a\nb" := by
      decide
    have hs : pCrlf.signalstatus ≠ some SIGSEGV := by decide
    simp [Child.stdout, h, Child.wait, hw, hs, Child.kill, Child.matchOp,
          Expected.truthy, appendLog, hn, Except.toOption]

/-- C7 (witness): a fresh child matched against the concrete CRLF
output. -/
theorem claim7_crlf_witness :
    (Child.stdout (fun _ _ => false) CState.init pCrlf
        (some (.file "a\nb")) none).toOption.map
      (fun r => (r.status.failed, r.payload.output)) = some (false, "a\nb") :=
  (claim7_crlf_literal_match (fun _ _ => false) CState.init rfl).2.2.2

theorem locSuffix_empty_of_outside (dir : String) : ∀ (frames : List VFrame),
    (∀ fr ∈ frames, ∀ o, fr.obj = some o → pyDirname o ≠ dir) →
    locSuffix dir frames = "" := by
  intro frames
  induction frames with
  | nil => intro _; rfl
  | cons fr rest ih =>
      intro hall
      have htail := ih (fun g hg => hall g (List.mem_cons_of_mem _ hg))
      rcases hobj : fr.obj with _ | o
      · simp only [locSuffix, hobj]
        exact htail
      · simp only [locSuffix, hobj]
        rw [if_neg (hall fr (List.mem_cons_self _ _) o hobj)]
        exact htail

/-- C8: the valgrind log is the first-occurrence deduplication of the
composed messages — two diagnostics with identical composed messages
collapse to one entry, without duplicates, as a subsequence of the
message list in first-seen order and containing exactly its members —
and a diagnostic none of whose frames has an object inside the check
directory gets no location suffix. -/
theorem claim8_valgrind_dedup (dir : String) (errs : List VError) :
    checkValgrindLog dir errs = dedupFirst (errs.map (composeMsg dir))
    ∧ (checkValgrindLog dir errs).Nodup
    ∧ List.Sublist (checkValgrindLog dir errs) (errs.map (composeMsg dir))
    ∧ (∀ m, m ∈ checkValgrindLog dir errs ↔ m ∈ errs.map (composeMsg dir))
    ∧ (∀ e ∈ errs,
        (∀ fr ∈ e.frames, ∀ o, fr.obj = some o → pyDirname o ≠ dir) →
        locSuffix dir e.frames = "") := by
  refine ⟨checkValgrindLog_eq_dedupFirst dir errs, vLogLoop_nodup _ _,
          vLogLoop_sublist _ _, ?_, ?_⟩
  · intro m
    rw [checkValgrindLog, vLogLoop_mem]
    simp
  · intro e _ hout
    exact locSuffix_empty_of_outside dir e.frames hout

/-- C8 (witness): concrete deduplication and localisation behaviour. -/
theorem claim8_valgrind_witness :
    (checkValgrindLog "a/b" [vErrOutside, vErrOutside]).Nodup
    ∧ locSuffix "a/b" vErrOutside.frames = "" := by
  refine ⟨(claim8_valgrind_dedup "a/b" [vErrOutside, vErrOutside]).2.1, ?_⟩
  refine (claim8_valgrind_dedup "a/b" [vErrOutside]).2.2.2.2 vErrOutside
    (by decide) ?_
  intro fr hfr o ho
  simp only [vErrOutside, List.mem_singleton] at hfr
  subst hfr
  cases ho
  decide

/-- C9: when a check body returns normally (and no dependency gates the
check), the recorded result depends only on the last spawned child: a
failed last child gives FAIL carrying the error and help messages of
that child,
while an unfailed (or absent) last child gives PASS even when an
earlier child failed. -/
theorem claim9_last_child_decides (name : String)
    (results : List (String × Option Bool)) (children : List CState) :
    (∀ last, children.getLast? = some last →
      (last.status.failed = true →
        (checkWrapper name none results (.normal children)).result = Checks.FAIL
        ∧ (checkWrapper name none results (.normal children)).rationale
            = some last.payload.error_message
        ∧ (checkWrapper name none results (.normal children)).helpers
            = some last.payload.help_message)
      ∧ (last.status.failed = false →
        (checkWrapper name none results (.normal children)).result = Checks.PASS))
    ∧ (children.getLast? = none →
        (checkWrapper name none results (.normal children)).result = Checks.PASS)
    ∧ (∀ children2 : List CState, children.getLast? = children2.getLast? →
        (checkWrapper name none results (.normal children)).result
          = (checkWrapper name none results (.normal children2)).result) := by
  refine ⟨?_, ?_, ?_⟩
  · intro last hlast
    constructor <;> intro hf <;>
      simp [checkWrapper, depTruthy, hlast, hf]
  · intro hlast
    simp [checkWrapper, depTruthy, hlast]
  · intro children2 heq
    simp only [checkWrapper, depTruthy, Bool.false_and, Bool.false_eq_true,
               reduceIte, heq]

/-- C9 (witness): a check whose earlier child failed but whose last
child did not is recorded as PASS. -/
theorem claim9_last_child_witness :
    [cFailedW, CState.init].getLast? = some CState.init
    ∧ (checkWrapper "t" none [] (.normal [cFailedW, CState.init])).result
        = Checks.PASS :=
  ⟨by decide,
   ((claim9_last_child_decides "t" [] [cFailedW, CState.init]).1 CState.init
      (by decide)).2 rfl⟩

/-- C10: the display form of a Mismatch is `expected E, not A` where
each value renders as follows: the end-of-input expectation renders as
the bare string EOF; a list is first joined with newlines; a string
renders via its repr with the quotes stripped, kept whole when at most
15 characters and truncated to 15 characters followed by three dots
when longer, wrapped in double quotes; every rendering is at most 20
characters long. -/
theorem claim10_mismatch_raw :
    (∀ m : Mismatch, Mismatch.toStr m
        = "expected " ++ Mismatch.raw m.expected ++ ", not " ++ Mismatch.raw m.actual)
    ∧ Mismatch.raw .eofv = "EOF"
    ∧ (∀ xs, Mismatch.raw (.listv xs) = Mismatch.raw (.strv (pyJoinNl xs)))
    ∧ (∀ s, (reprStripped s).length ≤ 15 →
        Mismatch.raw (.strv s)
          = String.mk (dqChar :: reprStripped s ++ [dqChar]))
    ∧ (∀ s, (reprStripped s).length > 15 →
        Mismatch.raw (.strv s)
          = String.mk (dqChar ::
              ((reprStripped s).take 15 ++ ['.', '.', '.']) ++ [dqChar]))
    ∧ (∀ v, (Mismatch.raw v).length ≤ 20) := by
  refine ⟨fun m => rfl, rfl, fun xs => rfl, ?_, ?_, ?_⟩
  · intro s hle
    simp only [Mismatch.raw, rawCore]
    rw [if_neg (by omega)]
  · intro s hgt
    simp only [Mismatch.raw, rawCore]
    rw [if_pos hgt]
  · intro v
    have hcore : ∀ r : List Char, (rawCore r).length ≤ 20 := by
      intro r
      simp only [rawCore, String.length]
      split
      · simp only [String.mk, List.length_cons, List.length_append,
                   List.length_take, List.length_nil]
        omega
      · rename_i hle
        rw [Nat.not_lt] at hle
        simp only [String.mk, List.length_cons, List.length_append,
                   List.length_nil]
        omega
    cases v with
    | strv s => exact hcore _
    | listv xs => exact hcore _
    | eofv => decide
    | fileObj => exact hcore _

/-- C10 (witness): the untruncated rendering at a concrete short
string. -/
theorem claim10_mismatch_raw_witness :
    (reprStripped "hello").length ≤ 15
    ∧ Mismatch.raw (.strv "hello")
        = String.mk (dqChar :: reprStripped "hello" ++ [dqChar]) :=
  ⟨by decide, claim10_mismatch_raw.2.2.2.1 "hello" (by decide)⟩

end Check50
